import Mathlib

/-!
Shallow embedding of the literature-retrieval aggregation core of the
repository (scipaper): `core/fetcher.py`, `core/advanced_search.py`,
`core/recommendations.py` and `sources/registry.py`, together with the
theorems settling the frozen claims about it.

Conventions of the embedding:
* Python dict records become Lean structures holding exactly the fields the
  modelled code reads; a missing key read with `.get(k, d)` is modelled by
  the field's value, with `""` / `[]` / `0` playing the role of the default.
* A provider's network call is modelled by its outcome (`Except`); the
  generic `except Exception: continue` in the per-source loop makes every
  raising outcome equivalent, so outcomes carry only the error kind.
* Python's stable `list.sort(key=k, reverse=True)` is modelled by Mathlib's
  stable `List.insertionSort` with the relation `key b ≤ key a`.
* Python float arithmetic is modelled over `ℝ` (for the relevance score,
  whose inputs in the claims are exactly representable) and over `ℚ`
  (for the recommendation scores, where only ring operations occur).
-/

/-- Python's `needle in hay` substring test on strings. -/
def substrB (needle hay : String) : Bool :=
  hay.toList.tails.any (fun t => needle.toList.isPrefixOf t)

/-- First-occurrence-preserving deduplication by a key, carrying the set of
keys already seen; models the `seen`-set loops of the source. -/
def dedupByGo {α κ : Type} [DecidableEq κ] (key : α → κ) (seen : List κ) :
    List α → List α
  | [] => []
  | x :: xs =>
    if key x ∈ seen then dedupByGo key seen xs
    else x :: dedupByGo key (key x :: seen) xs

/-- First-occurrence-preserving deduplication by a key. -/
def dedupBy {α κ : Type} [DecidableEq κ] (key : α → κ) (l : List α) : List α :=
  dedupByGo key [] l

/-- Stable sort, descending in the given key; models Python's
`list.sort(key=key, reverse=True)` (Timsort is stable and `reverse=True`
keeps the original order of equal keys, exactly as insertion sort with the
relation `key b ≤ key a` does). -/
def sortDescBy {α β : Type} [LinearOrder β] (key : α → β) (l : List α) :
    List α :=
  List.insertionSort (fun a b => key b ≤ key a) l

/-- The canonical paper record, with exactly the dict fields the modelled
code reads (`core/fetcher.py`, `core/advanced_search.py`). -/
structure Paper where
  id : String
  title : String
  authors : List String
  date : String
  abstract : String
  journal : String
  doi : String
  url : String
  source : String
  citation_count : Nat
deriving DecidableEq

/-- The all-defaults paper, standing for a dict in which every read key
falls back to its `.get` default (`""` / `[]` / `0`). -/
def emptyPaper : Paper :=
  { id := "", title := "", authors := [], date := "", abstract := ""
    journal := "", doi := "", url := "", source := "", citation_count := 0 }

/-!
### Kernel-reducible string helpers

The built-in `String.trim`, `String.startsWith`, `String.toLower`,
`String.contains` and `String.split` are implemented over byte positions
(partly by well-founded recursion), which the kernel cannot evaluate; the
helpers below compute the same functions structurally over the character
list, so that closed claims can be settled by `decide`.
-/

deriving instance DecidableEq for Except

/-- Python's `str.lower()` (ASCII case mapping, which covers every string
in the modelled code and claims). -/
def pyLower (s : String) : String :=
  ⟨s.toList.map Char.toLower⟩

/-- Python's `str.strip()`: drop leading and trailing whitespace. -/
def pyStrip (s : String) : String :=
  ⟨((s.toList.dropWhile Char.isWhitespace).reverse.dropWhile
      Char.isWhitespace).reverse⟩

/-- Python's `str.startswith(pre)`. -/
def startsWithL (s pre : String) : Bool :=
  pre.toList.isPrefixOf s.toList

/-- Python's `str.isdigit()` restricted to ASCII digits (the identifiers
in the claims are ASCII): non-empty and all digits. -/
def pyIsDigit (s : String) : Bool :=
  !s.toList.isEmpty && s.toList.all Char.isDigit

/-- Python's `s[:n]` character-truncation. -/
def pyTake (n : Nat) (s : String) : String :=
  ⟨s.toList.take n⟩

/-- Python's `" ".join(l)`. -/
def joinSpace (l : List String) : String :=
  String.intercalate " " l

/-- Python's `str.split()` (split on whitespace runs, no empty pieces). -/
def pySplitWs (s : String) : List String :=
  ((s.toList.splitOnP Char.isWhitespace).map
    (fun l => (⟨l⟩ : String))).filter (fun t => !(t == ""))

/-- Fueled core of `pyReplace`; the fuel is the length of the remaining
text, which bounds the number of steps. -/
def pyReplaceAux (pat rep : List Char) : Nat → List Char → List Char
  | _, [] => []
  | 0, l => l
  | fuel + 1, c :: cs =>
    if pat.isPrefixOf (c :: cs) && !pat.isEmpty then
      rep ++ pyReplaceAux pat rep fuel ((c :: cs).drop pat.length)
    else
      c :: pyReplaceAux pat rep fuel cs

/-- Python's `str.replace(pat, rep)`: replace all non-overlapping
occurrences left to right (for the non-empty patterns the source uses;
an empty pattern is a no-op here). -/
def pyReplace (s pat rep : String) : String :=
  ⟨pyReplaceAux pat.toList rep.toList s.toList.length s.toList⟩

/-!
### Error taxonomy (`exceptions.py`)

`_retry_on_transient` retries iff
`isinstance(e, (NetworkError, RateLimitError)) and e.is_transient()`;
both classes return `True` from `is_transient`, every other kind is not
retried by that test.
-/

/-- The exception classes of `exceptions.py` that the modelled code
distinguishes. -/
inductive ErrKind where
  | network
  | rateLimit
  | sourceErr
  | fetcherErr
  | other
deriving DecidableEq

/-- Retry eligibility test of `Fetcher._retry_on_transient`
(`isinstance(e, (NetworkError, RateLimitError)) and e.is_transient()`). -/
def ErrKind.isTransientRetry : ErrKind → Bool
  | .network => true
  | .rateLimit => true
  | _ => false

/-!
### `Fetcher._retry_on_transient` (`core/fetcher.py`, lines 60-76)

A single provider call is modelled by the outcome of each of its
invocations: `behavior n` is what the `n`-th invocation (0-based) returns
or raises.  The wrapper's observable behaviour is the final outcome, the
number of invocations made, and the list of backoff waits slept between
consecutive invocations (in time units, `2 ** attempt` as in the source).
-/

/-- The `while attempt < max_retries` loop of `_retry_on_transient`,
structurally recursing on `remaining = max_retries - attempt`; `attempt`
counts the invocations already made.  Returns (outcome, total
invocations, waits slept). -/
def retryAux {α : Type} (behavior : Nat → Except ErrKind α)
    (maxRetries : Nat) :
    Nat → Nat → List Nat → Except ErrKind α × Nat × List Nat
  | 0, attempt, waits =>
    -- the trailing `raise FetcherError("Max retries exceeded ...")`,
    -- reachable only when the loop body never runs (max_retries ≤ 0)
    (.error .fetcherErr, attempt, waits)
  | remaining + 1, attempt, waits =>
    match behavior attempt with
    | .ok a => (.ok a, attempt + 1, waits)
    | .error e =>
      if e.isTransientRetry then
        if attempt + 1 ≥ maxRetries then (.error e, attempt + 1, waits)
        else retryAux behavior maxRetries remaining (attempt + 1)
          (waits ++ [2 ^ (attempt + 1)])
      else (.error e, attempt + 1, waits)

/-- `Fetcher._retry_on_transient(func, max_retries)`: outcome, number of
invocations of `func`, and backoff waits (the source's default budget is
`max_retries = 3`). -/
def retryOnTransient {α : Type} (behavior : Nat → Except ErrKind α)
    (maxRetries : Nat) : Except ErrKind α × Nat × List Nat :=
  retryAux behavior maxRetries maxRetries 0 []

/-!
### `Fetcher.search` (`core/fetcher.py`, lines 78-129)

The per-source environment `env : String → Option (Except ErrKind (List Paper))`
models, for one `search` call, what happens for each source name:
`none` stands for `get_source` returning `None` (the source cannot be
instantiated), `some (.error e)` for the retried `source.search` raising
(after retries), and `some (.ok papers)` for success.  The `except`
clauses in the per-source loop catch every exception and `continue`, so a
raising source contributes nothing.  The rate limiter decorator adds no
observable behaviour at this level and is elided.
-/

/-- Registration order of `SourceRegistry._register_default_sources`
(`sources/registry.py`); `list_sources()` returns it, dicts preserve
insertion order. -/
def defaultSources : List String :=
  ["arxiv", "crossref", "pubmed", "semanticscholar", "xrxiv"]

/-- Source defaulting and validation steps of `Fetcher.search`:
`sources` defaults to `["semanticscholar"]`, then invalid names are
dropped. -/
def validatedSources (available : List String)
    (sources : Option (List String)) : List String :=
  (sources.getD ["semanticscholar"]).filter (fun s => s ∈ available)

/-- What one source contributes to `all_papers`: its papers on success,
nothing when it cannot be instantiated or its (retried) search raises. -/
def sourceContribution (env : String → Option (Except ErrKind (List Paper)))
    (s : String) : List Paper :=
  match env s with
  | some (.ok papers) => papers
  | _ => []

/-- Sort key of `all_papers.sort(key=lambda x: (x.get('date', ''),
x.get('title', '')), reverse=True)`: the (date, title) pair, compared as
Python compares string tuples (lexicographically, by code point). -/
def searchSortKey (p : Paper) : Lex (List Char × List Char) :=
  toLex (p.date.toList, p.title.toList)

/-- The cache-miss body of `Fetcher.search`: validate sources, collect the
per-source contributions, sort, truncate, cache.  Returns the call's
outcome together with the cache write it performs (`some value`) or
`none` when nothing is written. -/
def fetcherSearchMiss (available : List String)
    (env : String → Option (Except ErrKind (List Paper)))
    (sources : Option (List String)) (limit : Nat) :
    Except ErrKind (List Paper) × Option (List Paper) :=
  let valid := validatedSources available sources
  if valid.isEmpty then
    -- `raise FetcherError("No valid sources specified")`
    (.error .fetcherErr, none)
  else
    let allPapers := (valid.map (sourceContribution env)).flatten
    let result := (sortDescBy searchSortKey allPapers).take limit
    (.ok result, some result)

/-- `Fetcher.search(query, sources, limit)`, starting from the cache
lookup: `cached` is what `_cache_get` returned (`none` on miss or cache
error).  `if cached:` serves only a non-empty cached list. -/
def fetcherSearch (available : List String)
    (env : String → Option (Except ErrKind (List Paper)))
    (cached : Option (List Paper))
    (sources : Option (List String)) (limit : Nat) :
    Except ErrKind (List Paper) × Option (List Paper) :=
  match cached with
  | some (p :: ps) => (.ok (p :: ps), none)
  | _ => fetcherSearchMiss available env sources limit

/-!
### `Fetcher.fetch` priority order (`core/fetcher.py`, lines 137-187)

Only the construction of the prioritized source order is modelled here:
the claims about `fetch` concern which providers are attempted in which
order.
-/

/-- The prioritized source order `Fetcher.fetch` builds for an identifier
when no explicit source is given: pattern heuristics seed the list, then
all remaining registered sources follow in registration order without
duplicates. -/
def fetchPrioritized (available : List String) (identifier : String) :
    List String :=
  let normalized := pyStrip identifier
  let prioritized :=
    if startsWithL normalized "PMID:" || pyIsDigit normalized then
      ["semanticscholar", "pubmed"]
    else if startsWithL (pyLower normalized) "arxiv:" then
      ["semanticscholar", "arxiv"]
    else if startsWithL normalized "10." || normalized.toList.contains '/' then
      ["semanticscholar", "crossref"]
    else if !normalized.toList.isEmpty then
      ["semanticscholar"]
    else
      []
  prioritized ++ available.filter (fun s => !(prioritized.contains s))

/-!
### `AdvancedSearchEngine._deduplicate_results`
(`core/advanced_search.py`, lines 140-161)
-/

/-- The dedup identifier of `_deduplicate_results`: the normalized DOI
when non-empty, otherwise `title[:50] + "|" + authors[:30]` (title and
space-joined author list both stripped and lower-cased first, as in the
source). -/
def dedupKey (result : Paper) : String :=
  let doi := pyLower (pyStrip result.doi)
  let title := pyTake 50 (pyLower (pyStrip result.title))
  let authors := pyTake 30 (pyLower (pyStrip (joinSpace result.authors)))
  if doi = "" then title ++ "|" ++ authors else doi

/-- `_deduplicate_results`: keep the first occurrence of every dedup
identifier, preserving order. -/
def deduplicateResults (results : List Paper) : List Paper :=
  dedupBy dedupKey results

/-!
### `AdvancedSearchEngine._expand_query`
(`core/advanced_search.py`, lines 99-138)
-/

/-- The `expansions` list `_expand_query` accumulates: synonym variants
for each matched phrase, then (for digit-free queries) the two
year-suffixed variants with the hard-coded `current_year = 2024`. -/
def synonymExpansions (query : String) : List String :=
  (if substrB "machine learning" (pyLower query) then
    [pyReplace query "machine learning" "ML",
     pyReplace query "machine learning" "artificial intelligence",
     pyReplace query "machine learning" "neural networks"]
   else []) ++
  (if substrB "neural network" (pyLower query) then
    [pyReplace query "neural network" "deep learning",
     pyReplace query "neural network" "neural net",
     pyReplace query "neural network" "ANN"]
   else []) ++
  (if substrB "climate change" (pyLower query) then
    [pyReplace query "climate change" "global warming",
     pyReplace query "climate change" "climate crisis"]
   else []) ++
  (if query.toList.any Char.isDigit then []
   else [query ++ " 2024", query ++ " 2023"])

/-- `_expand_query(query, semantic_search)`: the original query plus the
first 3 accumulated expansions; the final `list(set(...))` returns the
distinct elements in an order CPython does not specify, modelled here
as first-occurrence-order deduplication (the claims settled below depend
only on membership and count). -/
def expandQuery (query : String) (semanticSearch : Bool) : List String :=
  if !semanticSearch then [query]
  else dedupBy (fun s => s) ([query] ++ (synonymExpansions query).take 3)

/-!
### `AdvancedSearchEngine._rank_results`
(`core/advanced_search.py`, lines 247-312)
-/

/-- `set(original_query.lower().split())`, as a list of the distinct
terms. -/
def queryTerms (q : String) : List String :=
  dedupBy (fun s => s) (pySplitWs (pyLower q))

/-- `sum(1 for term in query_terms if term in text)`. -/
def termMatches (terms : List String) (text : String) : Nat :=
  (terms.filter (fun t => substrB t text)).length

/-- Python `int(...)` on the year strings the repository stores: digits
only (a non-numeric or empty string raises `ValueError`, modelled as
`none`). -/
def pyParseNat (s : String) : Option Nat :=
  let t := pyStrip s
  if pyIsDigit t then
    some (t.toList.foldl (fun n c => 10 * n + (c.toNat - 48)) 0)
  else none

/-- `calculate_relevance_score` of `_rank_results`: 10 per matched title
term, 5 per abstract term, 3 per author term, `min(sqrt(citations), 20)`
when citations are positive, and the recency bonus
`max(0, 5 - (2024 - year) * 0.5)` when the date parses; float arithmetic
modelled over `ℝ`. -/
noncomputable def relevanceScore (originalQuery : String) (result : Paper) :
    ℝ :=
  let terms := queryTerms originalQuery
  let titleMatches := termMatches terms (pyLower result.title)
  let abstractMatches := termMatches terms (pyLower result.abstract)
  let authorMatches := termMatches terms (pyLower (joinSpace result.authors))
  let citeScore : ℝ :=
    if 0 < result.citation_count then
      min (Real.sqrt result.citation_count) 20
    else 0
  let recency : ℝ :=
    match pyParseNat result.date with
    | some year => max 0 (5 - ((2024 : ℝ) - year) / 2)
    | none => 0
  titleMatches * 10 + abstractMatches * 5 + authorMatches * 3
    + citeScore + recency

/-- Sort key of the `"date"` ranking mode:
`int(result.get("date", "0"))`, with `0` on a parse failure. -/
def dateSortKey (result : Paper) : Nat :=
  (pyParseNat result.date).getD 0

/-- `_rank_results(results, method, original_query)`: stable descending
sort under the selected mode; an unknown mode recurses with
`"relevance"`, hence equals the relevance branch. -/
noncomputable def rankResults (results : List Paper) (method : String)
    (originalQuery : String) : List Paper :=
  if method = "relevance" then
    (sortDescBy (fun rs => rs.2)
      (results.map (fun r => (r, relevanceScore originalQuery r)))).map
      Prod.fst
  else if method = "date" then
    sortDescBy dateSortKey results
  else if method = "citations" then
    sortDescBy (fun r => r.citation_count) results
  else
    (sortDescBy (fun rs => rs.2)
      (results.map (fun r => (r, relevanceScore originalQuery r)))).map
      Prod.fst

/-!
### `PaperRecommendationEngine` (`core/recommendations.py`)

A recommendation candidate is a paper dict carrying the fields the
modelled code reads: `id`, `authors`, `journal`,
`recommendation_score`, `recommendation_reason`.  The float scores are
modelled over `ℚ` (only ring operations occur on them).
-/

/-- A recommendation candidate, with the fields
`_hybrid_recommendations` and `_calculate_diversity_score` read. -/
structure Rec where
  id : String
  authors : List String
  journal : String
  recommendation_score : ℚ
  recommendation_reason : String
deriving DecidableEq

/-- The all-defaults candidate (every read key at its `.get` default). -/
def emptyRec : Rec :=
  { id := "", authors := [], journal := "", recommendation_score := 0
    recommendation_reason := "" }

/-- One iteration of the dedup loop of `_hybrid_recommendations`
(`core/recommendations.py`, lines 263-296): a candidate with a falsy id
is dropped; a duplicate id averages its score into the existing entry and
appends its reason after `"; "`; a new id is appended.  The `seen` dict
(insertion-ordered in Python) is an association list. -/
def hybridMergeStep (seen : List (String × Rec)) (rec : Rec) :
    List (String × Rec) :=
  if rec.id = "" then seen
  else if (seen.lookup rec.id).isSome then
    seen.map (fun kv =>
      if kv.1 = rec.id then
        (kv.1,
          { kv.2 with
            recommendation_score :=
              (kv.2.recommendation_score + rec.recommendation_score) / 2
            recommendation_reason :=
              kv.2.recommendation_reason ++ "; " ++
                rec.recommendation_reason })
      else kv)
  else seen ++ [(rec.id, rec)]

/-- The combine/dedup/sort/truncate tail of `_hybrid_recommendations`,
applied to the three per-algorithm candidate lists (each produced
upstream at `limit * 2`). -/
def hybridCombine (contentRec collabRec citationRec : List Rec)
    (limit : Nat) : List Rec :=
  let allRecommendations := contentRec ++ collabRec ++ citationRec
  let seen := allRecommendations.foldl hybridMergeStep []
  (sortDescBy (fun r => r.recommendation_score)
    (seen.map Prod.snd)).take limit

/-- The pairwise overlap of `_calculate_diversity_score`
(`core/recommendations.py`, lines 381-406): (number of distinct shared
authors when both author sets are non-empty, else 0, plus 1 when the
journals are equal and non-empty) divided by 2. -/
def overlapScore (paper other : Rec) : ℚ :=
  let authorOverlap : ℚ :=
    if !paper.authors.isEmpty && !other.authors.isEmpty then
      ((dedupBy (fun a => a) paper.authors).filter
        (fun a => a ∈ other.authors)).length
    else 0
  let journalOverlap : ℚ :=
    if paper.journal = other.journal ∧ paper.journal ≠ "" then 1 else 0
  (authorOverlap + journalOverlap) / 2

/-- `_calculate_diversity_score(paper, all_papers)`: 1.0 for a batch of
at most one; otherwise the mean of `1 - overlap` over the candidates
whose id differs (1.0 again if none remain). -/
def diversityScore (paper : Rec) (allPapers : List Rec) : ℚ :=
  if allPapers.length ≤ 1 then 1
  else
    let others := allPapers.filter (fun o => !(o.id = paper.id))
    let scores := others.map (fun o => 1 - overlapScore paper o)
    if scores.isEmpty then 1
    else scores.sum / scores.length

/-!
### Concrete fixtures used by the claim theorems, their witnesses and
counterexamples
-/

/-- The paper `{title: "A", date: "2020", citation_count: 0}` of the
spec's ranking-determinism property. -/
def paperA : Paper :=
  { emptyPaper with title := "A", date := "2020" }

/-- The paper `{title: "B", date: "2023", citation_count: 100}` of the
spec's ranking-determinism property. -/
def paperB : Paper :=
  { emptyPaper with title := "B", date := "2023", citation_count := 100 }

/-- A paper with a DOI, returned identically by two providers. -/
def dupPaper : Paper :=
  { emptyPaper with title := "Same Paper", doi := "10.1/x", date := "2021" }

/-- Environment: every source succeeds with `[dupPaper]`. -/
def envBothOk : String → Option (Except ErrKind (List Paper)) :=
  fun _ => some (.ok [dupPaper])

/-- Environment: `arxiv` raises (after retries), every other source
succeeds with `[dupPaper]`. -/
def envOneFails : String → Option (Except ErrKind (List Paper)) :=
  fun s => if s = "arxiv" then some (.error .network)
    else some (.ok [dupPaper])

/-- Environment: every source raises a network error (after retries). -/
def envAllFail : String → Option (Except ErrKind (List Paper)) :=
  fun _ => some (.error .network)

/-- Environment: `arxiv` and `crossref` raise, `pubmed` succeeds —
the spec's "2 of 3 requested providers fail" scenario. -/
def envThirdOk : String → Option (Except ErrKind (List Paper)) :=
  fun s => if s = "pubmed" then some (.ok [dupPaper])
    else some (.error .network)

/-- Hybrid-merge fixture: candidate `"X"` with score 6. -/
def recScore6 : Rec :=
  { emptyRec with
      id := "X"
      recommendation_score := 6
      recommendation_reason := "Related to interest: q" }

/-- Hybrid-merge fixture: candidate `"X"` with score 8. -/
def recScore8 : Rec :=
  { emptyRec with
      id := "X"
      recommendation_score := 8
      recommendation_reason := "Similar users liked this paper" }

/-- Diversity fixture: a recommendation sharing two authors and the
journal with `recSimilar2`. -/
def recSimilar1 : Rec :=
  { emptyRec with id := "p1", authors := ["x", "y"], journal := "J" }

/-- Diversity fixture: a recommendation sharing two authors and the
journal with `recSimilar1`. -/
def recSimilar2 : Rec :=
  { emptyRec with id := "p2", authors := ["x", "y"], journal := "J" }
theorem dedupByGo_sublist {α κ : Type} [DecidableEq κ] (key : α → κ) :
    ∀ (seen : List κ) (l : List α), List.Sublist (dedupByGo key seen l) l
  | _, [] => List.Sublist.slnil
  | seen, x :: xs => by
    unfold dedupByGo
    by_cases h : key x ∈ seen
    · simp only [if_pos h]
      exact (dedupByGo_sublist key seen xs).cons x
    · simp only [if_neg h]
      exact (dedupByGo_sublist key (key x :: seen) xs).cons₂ x

theorem dedupByGo_key_notMem {α κ : Type} [DecidableEq κ] (key : α → κ) :
    ∀ (seen : List κ) (l : List α) (k : κ), k ∈ seen →
      k ∉ (dedupByGo key seen l).map key
  | _, [], _, _ => by simp [dedupByGo]
  | seen, x :: xs, k, hk => by
    unfold dedupByGo
    by_cases h : key x ∈ seen
    · simp only [if_pos h]
      exact dedupByGo_key_notMem key seen xs k hk
    · simp only [if_neg h, List.map_cons, List.mem_cons]
      rintro (rfl | hmem)
      · exact h hk
      · exact dedupByGo_key_notMem key (key x :: seen) xs k
          (List.mem_cons_of_mem _ hk) hmem

theorem dedupByGo_keys_nodup {α κ : Type} [DecidableEq κ] (key : α → κ) :
    ∀ (seen : List κ) (l : List α), ((dedupByGo key seen l).map key).Nodup
  | _, [] => by simp [dedupByGo]
  | seen, x :: xs => by
    unfold dedupByGo
    by_cases h : key x ∈ seen
    · simp only [if_pos h]
      exact dedupByGo_keys_nodup key seen xs
    · simp only [if_neg h, List.map_cons, List.nodup_cons]
      exact ⟨dedupByGo_key_notMem key (key x :: seen) xs (key x)
          (List.mem_cons_self _ _),
        dedupByGo_keys_nodup key (key x :: seen) xs⟩

theorem dedupByGo_key_complete {α κ : Type} [DecidableEq κ] (key : α → κ) :
    ∀ (seen : List κ) (l : List α) (x : α), x ∈ l →
      key x ∈ seen ∨ key x ∈ (dedupByGo key seen l).map key
  | _, [], _, hx => absurd hx (List.not_mem_nil _)
  | seen, y :: ys, x, hx => by
    unfold dedupByGo
    by_cases h : key y ∈ seen
    · simp only [if_pos h]
      rcases List.mem_cons.mp hx with rfl | hx'
      · exact Or.inl h
      · exact dedupByGo_key_complete key seen ys x hx'
    · simp only [if_neg h, List.map_cons, List.mem_cons]
      rcases List.mem_cons.mp hx with rfl | hx'
      · exact Or.inr (Or.inl rfl)
      · rcases dedupByGo_key_complete key (key y :: seen) ys x hx' with hs | hm
        · rcases List.mem_cons.mp hs with he | hs'
          · exact Or.inr (Or.inl he)
          · exact Or.inl hs'
        · exact Or.inr (Or.inr hm)

theorem dedupBy_keys_nodup {α κ : Type} [DecidableEq κ] (key : α → κ)
    (l : List α) : ((dedupBy key l).map key).Nodup :=
  dedupByGo_keys_nodup key [] l

theorem dedupBy_sublist {α κ : Type} [DecidableEq κ] (key : α → κ)
    (l : List α) : List.Sublist (dedupBy key l) l :=
  dedupByGo_sublist key [] l

theorem dedupBy_key_complete {α κ : Type} [DecidableEq κ] (key : α → κ)
    (l : List α) (x : α) (hx : x ∈ l) : key x ∈ (dedupBy key l).map key := by
  rcases dedupByGo_key_complete key [] l x hx with h | h
  · exact absurd h (List.not_mem_nil _)
  · exact h

theorem dedupBy_id_mem {α : Type} [DecidableEq α] (l : List α) (x : α) :
    x ∈ dedupBy (fun a => a) l ↔ x ∈ l := by
  constructor
  · intro h
    exact (dedupBy_sublist (fun a => a) l).mem h
  · intro h
    have := dedupBy_key_complete (fun a => a) l x h
    simpa using this

theorem sortDescBy_perm {α β : Type} [LinearOrder β] (key : α → β)
    (l : List α) : List.Perm (sortDescBy key l) l :=
  List.perm_insertionSort _ l

theorem sortDescBy_sorted {α β : Type} [LinearOrder β] (key : α → β)
    (l : List α) :
    (sortDescBy key l).Pairwise (fun a b => key b ≤ key a) := by
  haveI : IsTotal α (fun a b => key b ≤ key a) :=
    ⟨fun a b => le_total (key b) (key a)⟩
  haveI : IsTrans α (fun a b => key b ≤ key a) :=
    ⟨fun _ _ _ h1 h2 => le_trans h2 h1⟩
  exact List.sorted_insertionSort _ l

theorem isEmpty_false_of_ne_nil {α : Type} {l : List α} (h : l ≠ []) :
    l.isEmpty = false := by
  cases l with
  | nil => exact absurd rfl h
  | cons a t => rfl

/-- On a cache miss with a non-empty validated source list, the body of
`Fetcher.search` returns and caches the sorted, truncated concatenation
of the per-source contributions. -/
theorem fetcherSearch_miss_eq (available : List String)
    (env : String → Option (Except ErrKind (List Paper)))
    (sources : Option (List String)) (limit : Nat)
    (h : validatedSources available sources ≠ []) :
    fetcherSearch available env none sources limit =
      (.ok ((sortDescBy searchSortKey
          (((validatedSources available sources).map
            (sourceContribution env)).flatten)).take limit),
       some ((sortDescBy searchSortKey
          (((validatedSources available sources).map
            (sourceContribution env)).flatten)).take limit)) := by
  have he := isEmpty_false_of_ne_nil h
  simp [fetcherSearch, fetcherSearchMiss, he]
/-!
## Claim theorems
-/

/-- C4: with the default budget of 3, a call that always raises a
transient fault is invoked exactly 3 times with waits 2 then 4
(`2 ^ attempt`, attempt starting at 1) slept between consecutive
invocations, after which the original fault propagates unchanged in
kind; a non-transient fault propagates immediately after a single
invocation with no retry. -/
theorem C4_retry_bound {α : Type}
    (behavior behavior2 : Nat → Except ErrKind α) (k k2 : ErrKind)
    (h1 : ∀ n, behavior n = .error k) (h2 : k.isTransientRetry = true)
    (h3 : behavior2 0 = .error k2) (h4 : k2.isTransientRetry = false) :
    retryOnTransient behavior 3 = (.error k, 3, [2, 4]) ∧
    retryOnTransient behavior2 3 = (.error k2, 1, []) := by
  constructor
  · simp [retryOnTransient, retryAux, h1, h2]
  · simp [retryOnTransient, retryAux, h3, h4]

/-- C4 witness: the always-transient and the immediately-permanent
behaviours, instantiated concretely. -/
theorem C4_retry_bound_witness :
    retryOnTransient (fun _ => (.error .network : Except ErrKind Nat)) 3 =
      (.error .network, 3, [2, 4]) ∧
    retryOnTransient (fun _ => (.error .sourceErr : Except ErrKind Nat)) 3 =
      (.error .sourceErr, 1, []) :=
  C4_retry_bound (fun _ => .error .network) (fun _ => .error .sourceErr)
    .network .sourceErr (fun _ => rfl) rfl rfl rfl

/-- C6 counterexample: for `"2401.12345"` the first attempted provider
is the generic `semanticscholar`, not the domain-specific `arxiv` — the
code keys its arXiv heuristic on an `"arxiv:"` prefix, never on the
`####.#####` pattern, so `arxiv` is not placed ahead of every generic
provider. -/
theorem C6_counterexample :
    (fetchPrioritized defaultSources "2401.12345").head? =
      some "semanticscholar" ∧
    fetchPrioritized defaultSources "2401.12345" =
      ["semanticscholar", "arxiv", "crossref", "pubmed", "xrxiv"] := by
  constructor
  · decide
  · decide

/-- C6 amended: for `"2401.12345"` the attempted order is
`[semanticscholar, arxiv, crossref, pubmed, xrxiv]` — the generic
`semanticscholar` first (the code matches only an `"arxiv:"` prefix, so
the bare-number pattern falls to the generic branch) and the rest in
registration order; for `"10.1000/xyz"` the order is
`[semanticscholar, crossref, arxiv, pubmed, xrxiv]` — the DOI-resolving
`crossref` prioritized directly after the generic `semanticscholar`; in
both cases the remaining registered providers follow in registration
order without duplicates. -/
theorem C6_fetch_priority_order :
    fetchPrioritized defaultSources "2401.12345" =
      ["semanticscholar", "arxiv", "crossref", "pubmed", "xrxiv"] ∧
    fetchPrioritized defaultSources "10.1000/xyz" =
      ["semanticscholar", "crossref", "arxiv", "pubmed", "xrxiv"] ∧
    (fetchPrioritized defaultSources "2401.12345").Nodup ∧
    (fetchPrioritized defaultSources "10.1000/xyz").Nodup := by
  refine ⟨by decide, by decide, by decide, by decide⟩

/-- C9: `Fetcher.search` treats a cached empty list exactly like a cache
miss (it re-runs the aggregation and re-writes the cache), and returns a
non-empty cached list immediately with no cache write. -/
theorem C9_empty_cache_is_miss (available : List String)
    (env : String → Option (Except ErrKind (List Paper)))
    (sources : Option (List String)) (limit : Nat) :
    fetcherSearch available env (some []) sources limit =
      fetcherSearch available env none sources limit ∧
    ∀ c : List Paper, c ≠ [] →
      fetcherSearch available env (some c) sources limit = (.ok c, none) := by
  constructor
  · rfl
  · intro c hc
    cases c with
    | nil => exact absurd rfl hc
    | cons p ps => rfl

/-- C9 witness: a cached empty list re-runs the aggregation (and caches
its result), while a non-empty cached list is served verbatim. -/
theorem C9_empty_cache_is_miss_witness :
    fetcherSearch defaultSources envBothOk (some []) (some ["arxiv"]) 5 =
      fetcherSearch defaultSources envBothOk none (some ["arxiv"]) 5 ∧
    fetcherSearch defaultSources envBothOk (some [dupPaper])
      (some ["arxiv"]) 5 = (.ok [dupPaper], none) :=
  ⟨(C9_empty_cache_is_miss defaultSources envBothOk (some ["arxiv"]) 5).1,
   (C9_empty_cache_is_miss defaultSources envBothOk (some ["arxiv"]) 5).2
     [dupPaper] (by decide)⟩

/-- C10: the diversity score is not bounded below by 0 — for two
recommendations sharing two authors and the journal, the pairwise
overlap `(shared-author count + same-journal indicator) / 2 = 3/2`
exceeds 1, and the diversity score, the mean of `1 - overlap` over the
other candidates, is `-1/2 < 0`. -/
theorem C10_diversity_negative :
    overlapScore recSimilar1 recSimilar2 = 3 / 2 ∧
    diversityScore recSimilar1 [recSimilar1, recSimilar2] = -(1 / 2) ∧
    diversityScore recSimilar1 [recSimilar1, recSimilar2] < 0 := by
  refine ⟨?_, ?_, ?_⟩
  · simp [overlapScore, recSimilar1, recSimilar2, emptyRec, dedupBy, dedupByGo]
    norm_num
  · simp [diversityScore, overlapScore, recSimilar1, recSimilar2, emptyRec,
      dedupBy, dedupByGo]
    norm_num
  · simp [diversityScore, overlapScore, recSimilar1, recSimilar2, emptyRec,
      dedupBy, dedupByGo]
    norm_num
/-- C1 counterexample: two providers each return the same DOI-carrying
paper; `Fetcher.search` returns it twice — two papers in the returned
list share the same dedup key, so no deduplication happened before
truncation. -/
theorem C1_counterexample :
    (fetcherSearch ["arxiv", "crossref"] envBothOk none
        (some ["arxiv", "crossref"]) 10).1 =
      .ok [dupPaper, dupPaper] ∧
    ¬ (([dupPaper, dupPaper].map dedupKey).Nodup) := by
  refine ⟨by decide, by decide⟩

/-- C1 amended: `Fetcher.search` applies no deduplication — on a cache
miss with at least one valid source it returns the plain concatenation
of the provider results, stable-sorted by (date desc, title desc) and
truncated to `limit`.  Deduplication with the claimed key (normalized
DOI when non-empty, else stripped lower-cased `title[:50]` plus
`"|"` plus stripped lower-cased space-joined `authors[:30]`, first
occurrence winning with order preserved) is implemented in
`AdvancedSearchEngine._deduplicate_results` and applied only in the
advanced-search pipeline, where its output indeed has pairwise distinct
keys. -/
theorem C1_search_merges_without_dedup (available : List String)
    (env : String → Option (Except ErrKind (List Paper)))
    (sources : List String) (limit : Nat)
    (h : validatedSources available (some sources) ≠ []) :
    (fetcherSearch available env none (some sources) limit).1 =
      .ok ((sortDescBy searchSortKey
        (((validatedSources available (some sources)).map
          (sourceContribution env)).flatten)).take limit) ∧
    (∀ l : List Paper, ((deduplicateResults l).map dedupKey).Nodup) ∧
    (∀ l : List Paper, List.Sublist (deduplicateResults l) l) ∧
    (∀ (l : List Paper) (x : Paper), x ∈ l →
      dedupKey x ∈ (deduplicateResults l).map dedupKey) := by
  refine ⟨?_, ?_, ?_, ?_⟩
  · rw [fetcherSearch_miss_eq available env (some sources) limit h]
  · intro l
    exact dedupBy_keys_nodup dedupKey l
  · intro l
    exact dedupBy_sublist dedupKey l
  · intro l x hx
    exact dedupBy_key_complete dedupKey l x hx

/-- C1 witness: the amended statement instantiated at the two-provider
duplicate environment. -/
theorem C1_search_merges_without_dedup_witness :
    validatedSources ["arxiv", "crossref"] (some ["arxiv", "crossref"]) ≠
      [] ∧
    (fetcherSearch ["arxiv", "crossref"] envBothOk none
        (some ["arxiv", "crossref"]) 10).1 =
      .ok [dupPaper, dupPaper] :=
  ⟨by decide,
   (C1_search_merges_without_dedup ["arxiv", "crossref"] envBothOk
      ["arxiv", "crossref"] 10 (by decide)).1.trans (by decide)⟩

/-- C2 counterexample: with one of two providers failing, the aggregated
(partial) result is still written to the cache; with every provider
failing, the empty result list is written to the cache under the call's
key — contradicting "no cache entry is written". -/
theorem C2_counterexample :
    (fetcherSearch ["arxiv", "crossref"] envOneFails none
        (some ["arxiv", "crossref"]) 10).2 = some [dupPaper] ∧
    (fetcherSearch ["arxiv", "crossref"] envAllFail none
        (some ["arxiv", "crossref"]) 10).2 = some [] := by
  refine ⟨by decide, by decide⟩

/-- C2 amended: the cache is written after every aggregation that runs
(at least one valid source), regardless of provider failures — a
transient all-provider outage does cache an empty result list under the
query's key; the cache is nonetheless not poisoned by it, because a
cached empty list is treated as a miss on the next call (served
identically to an absent entry). -/
theorem C2_cache_write_unconditional (available : List String)
    (env : String → Option (Except ErrKind (List Paper)))
    (sources : List String) (limit : Nat)
    (h : validatedSources available (some sources) ≠ []) :
    (fetcherSearch available env none (some sources) limit).2 =
      some ((sortDescBy searchSortKey
        (((validatedSources available (some sources)).map
          (sourceContribution env)).flatten)).take limit) ∧
    fetcherSearch available env (some []) (some sources) limit =
      fetcherSearch available env none (some sources) limit := by
  refine ⟨?_, rfl⟩
  rw [fetcherSearch_miss_eq available env (some sources) limit h]

/-- C2 witness: the amended statement instantiated at the all-fail
environment — the empty aggregate is cached, and the cached empty list
is then treated as a miss. -/
theorem C2_cache_write_unconditional_witness :
    validatedSources ["arxiv", "crossref"] (some ["arxiv", "crossref"]) ≠
      [] ∧
    (fetcherSearch ["arxiv", "crossref"] envAllFail none
        (some ["arxiv", "crossref"]) 10).2 = some [] :=
  ⟨by decide,
   (C2_cache_write_unconditional ["arxiv", "crossref"] envAllFail
      ["arxiv", "crossref"] 10 (by decide)).1.trans (by decide)⟩

/-- C3: with at least one valid requested source, `Fetcher.search`
never raises whatever subset of providers fails: it returns `ok` of the
merged, sorted, truncated contributions, and a provider that cannot be
instantiated or whose (retried) search raises contributes the empty
list. -/
theorem C3_partial_failure_resilience (available : List String)
    (env : String → Option (Except ErrKind (List Paper)))
    (sources : List String) (limit : Nat)
    (h : validatedSources available (some sources) ≠ []) :
    (fetcherSearch available env none (some sources) limit).1 =
      .ok ((sortDescBy searchSortKey
        (((validatedSources available (some sources)).map
          (sourceContribution env)).flatten)).take limit) ∧
    (∀ s : String,
      (env s = none ∨ ∃ e, env s = some (.error e)) →
        sourceContribution env s = []) := by
  constructor
  · rw [fetcherSearch_miss_eq available env (some sources) limit h]
  · intro s hs
    rcases hs with hnone | ⟨e, herr⟩
    · simp [sourceContribution, hnone]
    · simp [sourceContribution, herr]

/-- C3 witness: the spec's "2 of 3 requested providers fail" scenario —
`arxiv` and `crossref` raise after retries, `pubmed` succeeds, and
`search` returns `pubmed`'s results rather than raising. -/
theorem C3_partial_failure_resilience_witness :
    validatedSources defaultSources
        (some ["arxiv", "crossref", "pubmed"]) ≠ [] ∧
    (fetcherSearch defaultSources envThirdOk none
        (some ["arxiv", "crossref", "pubmed"]) 10).1 =
      .ok [dupPaper] :=
  ⟨by decide,
   (C3_partial_failure_resilience defaultSources envThirdOk
      ["arxiv", "crossref", "pubmed"] 10 (by decide)).1.trans (by decide)⟩
/-- C7 counterexample: when an id occurs in all three candidate lists
(scores 0, 0 and 6), the merged score is the left-nested running average
`((0 + 0)/2 + 6)/2 = 3`, not the average `(0 + 0 + 6)/3 = 2` of the
duplicates' scores. -/
theorem C7_counterexample :
    (hybridCombine [{ emptyRec with id := "X" }]
        [{ emptyRec with id := "X" }]
        [{ emptyRec with id := "X", recommendation_score := 6 }] 10).map
      (fun r => r.recommendation_score) = [3] ∧
    ((0 : ℚ) + 0 + 6) / 3 ≠ 3 := by
  constructor
  · simp [hybridCombine, hybridMergeStep, sortDescBy, emptyRec]
    norm_num
  · norm_num

/-- C7 amended: the hybrid merge folds each later duplicate into the
existing entry by the running pairwise average
`new = (current + duplicate)/2` — which equals the plain average exactly
when an id occurs twice — and concatenates the reasons with `"; "`; the
merged list is sorted by score descending (stably) and truncated to
`limit`.  For an id appearing once in each of two lists with scores `s₁`
and `s₂`, the merged entry's score is `(s₁ + s₂)/2`. -/
theorem C7_hybrid_merge (r1 r2 : Rec) (limit : Nat)
    (hid : r2.id = r1.id) (hne : r1.id ≠ "") (hlim : 1 ≤ limit) :
    hybridCombine [r1] [r2] [] limit =
      [{ r1 with
          recommendation_score :=
            (r1.recommendation_score + r2.recommendation_score) / 2
          recommendation_reason :=
            r1.recommendation_reason ++ "; " ++
              r2.recommendation_reason }] ∧
    (∀ (c k j : List Rec) (L : Nat), (hybridCombine c k j L).length ≤ L) ∧
    (∀ (c k j : List Rec) (L : Nat), (hybridCombine c k j L).Pairwise
      (fun a b =>
        b.recommendation_score ≤ a.recommendation_score)) := by
  refine ⟨?_, ?_, ?_⟩
  · cases limit with
    | zero => exact absurd hlim (by decide)
    | succ n =>
      simp [hybridCombine, hybridMergeStep, hid, hne, sortDescBy]
  · intro c k j L
    exact List.length_take_le L
      (sortDescBy (fun r => r.recommendation_score)
        (((c ++ k ++ j).foldl hybridMergeStep []).map Prod.snd))
  · intro c k j L
    have hs := sortDescBy_sorted (fun r : Rec => r.recommendation_score)
      (((c ++ k ++ j).foldl hybridMergeStep []).map Prod.snd)
    exact (hs.sublist (List.take_sublist L _))

/-- C7 witness: the spec's example — one list with score 6 and one with
score 8 merge to a single entry with score 7 and the two reasons joined
by `"; "`. -/
theorem C7_hybrid_merge_witness :
    recScore8.id = recScore6.id ∧ recScore6.id ≠ "" ∧
    hybridCombine [recScore6] [recScore8] [] 1 =
      [{ recScore6 with
          recommendation_score := (6 + 8) / 2
          recommendation_reason :=
            "Related to interest: q; Similar users liked this paper" }] :=
  ⟨rfl, by decide,
   (C7_hybrid_merge recScore6 recScore8 1 rfl (by decide)
      (le_refl 1)).1⟩

/-- C8 counterexample: `"machine learning"` contains no digits, yet
neither year-suffixed variant appears in its expansion — the three
synonym variants fill the `expansions[:3]` cap and the year variants,
appended after them, are dropped. -/
theorem C8_counterexample :
    ("machine learning".toList.any Char.isDigit) = false ∧
    expandQuery "machine learning" true =
      ["machine learning", "ML", "artificial intelligence",
       "neural networks"] ∧
    ¬ ("machine learning 2024" ∈ expandQuery "machine learning" true) := by
  refine ⟨by decide, by decide, by decide⟩

/-- C8 amended: the year-suffixed variants (with the hard-coded
`current_year = 2024`) are appended after the synonym variants and the
extension is capped at the first 3 accumulated expansions, so both year
variants are guaranteed only for digit-free queries matching no synonym
phrase; the expansion is always bounded by 4 entries (the model is a
deterministic function, so equal inputs trivially yield equal output
lists). -/
theorem C8_year_variants (q : String)
    (hdig : q.toList.any Char.isDigit = false)
    (hml : substrB "machine learning" (pyLower q) = false)
    (hnn : substrB "neural network" (pyLower q) = false)
    (hcc : substrB "climate change" (pyLower q) = false) :
    (q ++ " 2024") ∈ expandQuery q true ∧
    (q ++ " 2023") ∈ expandQuery q true ∧
    (∀ q' : String, (expandQuery q' true).length ≤ 4) := by
  have hexp : synonymExpansions q = [q ++ " 2024", q ++ " 2023"] := by
    unfold synonymExpansions
    rw [hml, hnn, hcc, hdig]
    simp
  refine ⟨?_, ?_, ?_⟩
  · show (q ++ " 2024") ∈
      dedupBy (fun s => s) ([q] ++ (synonymExpansions q).take 3)
    rw [hexp]
    exact (dedupBy_id_mem _ _).mpr (by simp)
  · show (q ++ " 2023") ∈
      dedupBy (fun s => s) ([q] ++ (synonymExpansions q).take 3)
    rw [hexp]
    exact (dedupBy_id_mem _ _).mpr (by simp)
  · intro q'
    have h1 :=
      (dedupBy_sublist (fun s : String => s)
        ([q'] ++ (synonymExpansions q').take 3)).length_le
    have h2 : ([q'] ++ (synonymExpansions q').take 3).length ≤ 4 := by
      simp [List.length_take]
    show (dedupBy (fun s => s)
      ([q'] ++ (synonymExpansions q').take 3)).length ≤ 4
    omega

/-- C8 witness: a digit-free query matching no synonym phrase carries
both year-suffixed variants. -/
theorem C8_year_variants_witness :
    ("quantum computing".toList.any Char.isDigit) = false ∧
    ("quantum computing 2024") ∈ expandQuery "quantum computing" true ∧
    ("quantum computing 2023") ∈ expandQuery "quantum computing" true :=
  ⟨by decide,
   (C8_year_variants "quantum computing" (by decide) (by decide)
      (by decide) (by decide)).1,
   (C8_year_variants "quantum computing" (by decide) (by decide)
      (by decide) (by decide)).2.1⟩
theorem relevanceScore_paperA : relevanceScore "A" paperA = 13 := by
  have hc : paperA.citation_count = 0 := rfl
  have hd : pyParseNat paperA.date = some 2020 := by decide
  have ht : termMatches (queryTerms "A") (pyLower paperA.title) = 1 := by
    decide
  have ha : termMatches (queryTerms "A") (pyLower paperA.abstract) = 0 := by
    decide
  have hau :
      termMatches (queryTerms "A") (pyLower (joinSpace paperA.authors)) =
        0 := by decide
  simp only [relevanceScore, ht, ha, hau, hc, hd]
  norm_num [max_def]

theorem relevanceScore_paperB : relevanceScore "A" paperB = 29 / 2 := by
  have hc : paperB.citation_count = 100 := rfl
  have hd : pyParseNat paperB.date = some 2023 := by decide
  have ht : termMatches (queryTerms "A") (pyLower paperB.title) = 0 := by
    decide
  have ha : termMatches (queryTerms "A") (pyLower paperB.abstract) = 0 := by
    decide
  have hau :
      termMatches (queryTerms "A") (pyLower (joinSpace paperB.authors)) =
        0 := by decide
  have hs : Real.sqrt ((100 : ℕ) : ℝ) = 10 := by
    rw [show (((100 : ℕ) : ℝ)) = (10 : ℝ) ^ 2 by norm_num]
    exact Real.sqrt_sq (by norm_num)
  simp only [relevanceScore, ht, ha, hau, hc, hd]
  rw [hs]
  norm_num [max_def, min_def]

theorem rankRelevance_paperA_paperB :
    rankResults [paperA, paperB] "relevance" "A" = [paperB, paperA] := by
  show (sortDescBy (fun rs => rs.2)
      [(paperA, relevanceScore "A" paperA),
       (paperB, relevanceScore "A" paperB)]).map Prod.fst =
    [paperB, paperA]
  unfold sortDescBy
  simp only [List.insertionSort, List.orderedInsert]
  rw [relevanceScore_paperA, relevanceScore_paperB]
  rw [if_neg (by norm_num : ¬ ((29 : ℝ) / 2 ≤ 13))]
  simp
/-- C5 counterexample: for query `"A"` the relevance ranking places `B`
first, not `A` — `A` scores 13 (10 title points + 3 recency) while `B`
scores 14.5 (10 capped citation points + 4.5 recency), so the claim that
the title-matching paper `A` ranks above `B` is false. -/
theorem C5_counterexample :
    rankResults [paperA, paperB] "relevance" "A" = [paperB, paperA] ∧
    rankResults [paperA, paperB] "relevance" "A" ≠ [paperA, paperB] := by
  constructor
  · exact rankRelevance_paperA_paperB
  · rw [rankRelevance_paperA_paperB]
    intro h
    have : paperB = paperA := by
      injection h
    exact absurd this (by decide)

/-- C5 amended: ranking mode `date` yields `[B, A]` and mode `citations`
yields `[B, A]`, as claimed; relevance mode for query `"A"` also yields
`[B, A]`, because with the stated formula (evaluated with the hard-coded
current year 2024) `A` scores `10 + 3 = 13` while `B` scores
`min(√100, 20) + 4.5 = 14.5`, so `B`'s citation and recency points beat
`A`'s title match. -/
theorem C5_ranking_modes :
    rankResults [paperA, paperB] "date" "A" = [paperB, paperA] ∧
    rankResults [paperA, paperB] "citations" "A" = [paperB, paperA] ∧
    rankResults [paperA, paperB] "relevance" "A" = [paperB, paperA] ∧
    relevanceScore "A" paperA = 13 ∧
    relevanceScore "A" paperB = 29 / 2 := by
  refine ⟨?_, ?_, rankRelevance_paperA_paperB, relevanceScore_paperA,
    relevanceScore_paperB⟩
  · show sortDescBy dateSortKey [paperA, paperB] = [paperB, paperA]
    decide
  · show sortDescBy (fun r => r.citation_count) [paperA, paperB] =
      [paperB, paperA]
    decide
